import Mathlib

/-!
Verification development for the `cy_mqtt_api.c` MQTT session manager.

The definitions below are a shallow embedding of the state machine in
`src/source/cy_mqtt_api.c`.  Pure computations are translated to Lean
functions; stateful code is translated to explicit state passing over a
`Client` record mirroring `cy_mqtt_object_t` and a `LibState` record
mirroring the process-wide globals.  External collaborators (the coreMQTT
codec, the transport, the RTOS) are passed in as explicit parameters: a
codec call result becomes an `MQTTStatus` argument, the packets delivered
by a `MQTT_ProcessLoop` call become a list of `Incoming` records, and so
on.  RTOS mutex / thread / queue primitives are modelled as succeeding
unless noted otherwise; whether the calling thread holds a mutex at a
given point is tracked explicitly where a property depends on it.
Machine integers are modelled as `Nat` with explicit `% 2 ^ w`
subtraction where the C code can wrap (the `size_t` time-budget
arithmetic of the transport adapter, the `uint8_t` handle counter).
-/

namespace CyMqttSpec

/-- Abstract kinds of the `cy_rslt_t` values returned by `cy_mqtt_api.c`
(`CY_RSLT_SUCCESS`, `CY_RSLT_MODULE_MQTT_BADARG`, ...).  `rtosError`
stands for a propagated RTOS/porting-layer error code. -/
inductive cy_rslt where
  | success
  | badarg
  | nomem
  | createFail
  | deinitFail
  | objNotInitialized
  | notConnected
  | connectFail
  | publishFail
  | subscribeFail
  | unsubscribeFail
  | mqttError
  | initFail
  | rtosError
deriving DecidableEq, Repr

/-- The coreMQTT `MQTTStatus_t` values the wrapper inspects. -/
inductive MQTTStatus where
  | MQTTSuccess
  | MQTTBadParameter
  | MQTTNoMemory
  | MQTTSendFailed
  | MQTTRecvFailed
  | MQTTBadResponse
  | MQTTServerRefused
  | MQTTNoDataAvailable
  | MQTTIllegalState
  | MQTTStateCollision
  | MQTTKeepAliveTimeout
deriving DecidableEq, Repr

/-- Codec-level QoS (`MQTTQoS_t`). -/
inductive MQTTQoS where
  | MQTTQoS0
  | MQTTQoS1
  | MQTTQoS2
deriving DecidableEq, Repr

/-- SUBACK return codes (`MQTTSubAckStatus_t`).  `successQos0` is the
all-zero value produced by `memset`. -/
inductive MQTTSubAckStatus where
  | successQos0
  | successQos1
  | successQos2
  | failure
deriving DecidableEq, Repr

/-- Public QoS values (`cy_mqtt_qos_t`): QoS0/1/2 plus the `INVALID`
sentinel written into `allocated_qos` for rejected topics. -/
inductive cy_mqtt_qos where
  | qos0
  | qos1
  | qos2
  | invalid
deriving DecidableEq, Repr

/-- MQTT control-packet classes dispatched by `mqtt_event_callback`. -/
inductive PacketType where
  | publishPkt
  | suback
  | unsuback
  | pingresp
  | pubrec
  | pubrel
  | pubcomp
  | puback
  | disconnectPkt
  | other
deriving DecidableEq, Repr

/-- One entry of `outgoing_pub_packets` (`cy_mqtt_pubpack_t`): the stored
packet id together with the fields of the stored `MQTTPublishInfo_t` that
the session state machine reads or writes (`qos`, `dup`).  A fully zeroed
slot (`packetid = 0 = MQTT_PACKET_ID_INVALID`) is free. -/
structure cy_mqtt_pubpack where
  packetid : Nat
  qos : MQTTQoS
  dup : Bool
deriving DecidableEq, Repr

/-- The all-zero slot produced by `memset`. -/
def emptyPack : cy_mqtt_pubpack := ⟨0, MQTTQoS.MQTTQoS0, false⟩

/-- The per-client state of `cy_mqtt_object_t` that the claims are about.
`recv_thread` models `recv_thread != NULL`; `pub_ack_packetid` and
`pub_ack_received` are the two fields of `pub_ack_status`. -/
structure Client where
  mqtt_obj_initialized : Bool
  mqtt_session_established : Bool
  broker_session_present : Bool
  mqtt_conn_status : Bool
  recv_thread : Bool
  mqtt_obj_index : Nat
  num_of_subs_in_req : Nat
  sub_ack_status : List MQTTSubAckStatus
  unsub_ack_received : Bool
  pub_ack_packetid : Nat
  pub_ack_received : Bool
  sent_packet_id : Nat
  outgoing_pub_packets : List cy_mqtt_pubpack
deriving DecidableEq, Repr

/-- Function `mqtt_cleanup_outgoing_publish`: zero slot `index` of the outgoing
PUBLISH store.  An out-of-range index is rejected with `BADARG` and the
array is untouched; `List.set` is a no-op out of range, which matches. -/
def mqtt_cleanup_outgoing_publish (slots : List cy_mqtt_pubpack) (index : Nat) :
    List cy_mqtt_pubpack :=
  slots.set index emptyPack

/-- The scan loop inside `mqtt_cleanup_outgoing_publish_with_packet_id`:
zero the first slot whose `packetid` matches and stop (the C loop breaks
after the first match). -/
def zeroFirstMatch : List cy_mqtt_pubpack → Nat → List cy_mqtt_pubpack
  | [], _ => []
  | s :: rest, pid =>
      if s.packetid = pid then emptyPack :: rest else s :: zeroFirstMatch rest pid

/-- Function `mqtt_cleanup_outgoing_publish_with_packet_id`: reject the invalid
packet id 0 (`BADARG`, store untouched), otherwise zero the first
matching slot. -/
def mqtt_cleanup_outgoing_publish_with_packet_id
    (slots : List cy_mqtt_pubpack) (pid : Nat) : List cy_mqtt_pubpack :=
  if pid = 0 then slots else zeroFirstMatch slots pid

/-- The copy loop of `mqtt_update_suback_status`: overwrite the first
`src.length` entries of `dst` with `src`, element by element
(`sub_ack_status[i] = payload[i]`). -/
def copyCodes : List MQTTSubAckStatus → List MQTTSubAckStatus → List MQTTSubAckStatus
  | [], _ => []
  | dst, [] => dst
  | _ :: dst, c :: cs => c :: copyCodes dst cs

/-- Function `mqtt_update_suback_status`: here `codecStatus` and `codes` are the result
of `MQTT_GetSubAckStatusCodes` (status, and the reported status-code
array whose length is the reported count).  On a codec failure or a
count/`num_of_subs_in_req` mismatch: clear `num_of_subs_in_req`, fail
with `CY_RSLT_MODULE_MQTT_ERROR`, leave `sub_ack_status` alone.
Otherwise copy the codes into `sub_ack_status` and clear
`num_of_subs_in_req`. -/
def mqtt_update_suback_status (c : Client) (codecStatus : MQTTStatus)
    (codes : List MQTTSubAckStatus) : cy_rslt × Client :=
  if codecStatus ≠ MQTTStatus.MQTTSuccess ∨ codes.length ≠ c.num_of_subs_in_req then
    (cy_rslt.mqttError, { c with num_of_subs_in_req := 0 })
  else
    (cy_rslt.success,
      { c with
          sub_ack_status := copyCodes c.sub_ack_status codes,
          num_of_subs_in_req := 0 })

/-- The PUBACK / PUBREC arm of `mqtt_event_callback` (the two arms are
textually identical in the source): update `pub_ack_status.puback_status`
only when the deserialization result is `MQTTSuccess`, then always run
`mqtt_cleanup_outgoing_publish_with_packet_id` on the incoming id. -/
def mqtt_handle_pub_ack_packet (c : Client) (deserStatus : MQTTStatus)
    (packet_id : Nat) : Client :=
  let c1 :=
    if deserStatus = MQTTStatus.MQTTSuccess then
      { c with pub_ack_received := decide (packet_id = c.pub_ack_packetid) }
    else c
  { c1 with
      outgoing_pub_packets :=
        mqtt_cleanup_outgoing_publish_with_packet_id c1.outgoing_pub_packets packet_id }

/-- Function `mqtt_event_callback`, restricted to its effect on the client state.
`subCodecStatus`/`subCodes` are the `MQTT_GetSubAckStatusCodes` outcome
consulted by the SUBACK arm.  Application upcalls (incoming PUBLISH,
DISCONNECT events) do not change the client state and are not modelled
here. -/
def mqtt_event_callback (c : Client) (ptype : PacketType) (deserStatus : MQTTStatus)
    (packet_id : Nat) (subCodecStatus : MQTTStatus)
    (subCodes : List MQTTSubAckStatus) : Client :=
  match ptype with
  | PacketType.publishPkt => c
  | PacketType.suback =>
      if c.sent_packet_id ≠ packet_id then c
      else (mqtt_update_suback_status c subCodecStatus subCodes).2
  | PacketType.unsuback =>
      { c with unsub_ack_received := decide (c.sent_packet_id = packet_id) }
  | PacketType.pingresp =>
      if deserStatus ≠ MQTTStatus.MQTTSuccess then
        { c with mqtt_session_established := false }
      else c
  | PacketType.pubrec => mqtt_handle_pub_ack_packet c deserStatus packet_id
  | PacketType.pubrel => c
  | PacketType.pubcomp => c
  | PacketType.puback => mqtt_handle_pub_ack_packet c deserStatus packet_id
  | PacketType.disconnectPkt => c
  | PacketType.other => c

/-- One packet handed to `mqtt_event_callback` during a
`MQTT_ProcessLoop` call. -/
structure Incoming where
  ptype : PacketType
  deserStatus : MQTTStatus
  packet_id : Nat
  subCodecStatus : MQTTStatus
  subCodes : List MQTTSubAckStatus
deriving DecidableEq, Repr

/-- The client-state effect of one `MQTT_ProcessLoop` call: the codec
dispatches each ready packet to `mqtt_event_callback` in order. -/
def run_process_loop (c : Client) (pkts : List Incoming) : Client :=
  pkts.foldl
    (fun acc p =>
      mqtt_event_callback acc p.ptype p.deserStatus p.packet_id p.subCodecStatus p.subCodes)
    c

/-! ### Publish resend on session resume (`mqtt_handle_publish_resend`) -/

/-- The inner `for` loop of `mqtt_handle_publish_resend` for one cursor
id `pid`: scan all slots; on a matching slot of QoS ≠ 0 set `dup = true`
and call `MQTT_Publish` with the original id (`f pid` is that call's
status) — a failed send breaks out of the scan immediately.  Returns the
updated store, the ids actually handed to `MQTT_Publish` (in order), the
`found_packetid` flag, and whether a send failed. -/
def scanSlots (f : Nat → MQTTStatus) (pid : Nat) :
    List cy_mqtt_pubpack → List cy_mqtt_pubpack × List Nat × Bool × Bool
  | [] => ([], [], false, false)
  | s :: rest =>
      if s.packetid = pid then
        if s.qos = MQTTQoS.MQTTQoS0 then
          let r := scanSlots f pid rest
          (s :: r.1, r.2.1, true, r.2.2.2)
        else
          let s' := { s with dup := true }
          if f pid = MQTTStatus.MQTTSuccess then
            let r := scanSlots f pid rest
            (s' :: r.1, pid :: r.2.1, true, r.2.2.2)
          else
            (s' :: rest, [pid], true, true)
      else
        let r := scanSlots f pid rest
        (s :: r.1, r.2.1, r.2.2.1, r.2.2.2)

/-- The outer `while` loop of `mqtt_handle_publish_resend` over the
cursor yields `ids` (the loop stops at the terminating
`MQTT_PACKET_ID_INVALID = 0`).  `res` is the sticky `result` variable:
it is set to `PUBLISH_FAIL` on a failed send or a missing id and never
reset.  Only a missing id breaks out of the `while`; after a failed send
the loop moves on to the next cursor id. -/
def resendLoop (f : Nat → MQTTStatus) :
    List Nat → List cy_mqtt_pubpack → cy_rslt → cy_rslt × List cy_mqtt_pubpack × List Nat
  | [], slots, res => (res, slots, [])
  | pid :: rest, slots, res =>
      if pid = 0 then (res, slots, [])
      else
        let sc := scanSlots f pid slots
        if sc.2.2.1 = false then (cy_rslt.publishFail, sc.1, sc.2.1)
        else
          let res' := if sc.2.2.2 then cy_rslt.publishFail else res
          let tail := resendLoop f rest sc.1 res'
          (tail.1, tail.2.1, sc.2.1 ++ tail.2.2)

/-- Function `mqtt_handle_publish_resend`: the list `ids` holds the successive non-zero
yields of `MQTT_PublishToResend`, `f` gives the `MQTT_Publish` status
for each re-sent packet id.  Returns the final result, the updated
outgoing store and the ids handed to `MQTT_Publish`, in order. -/
def mqtt_handle_publish_resend (slots : List cy_mqtt_pubpack) (ids : List Nat)
    (f : Nat → MQTTStatus) : cy_rslt × List cy_mqtt_pubpack × List Nat :=
  resendLoop f ids slots cy_rslt.success

/-! ### Transport adapter (`mqtt_awsport_network_receive`) -/

/-- The `size_t` width used by the adapter's time-budget arithmetic. -/
def SIZE_T_MOD : Nat := 2 ^ 64

/-- The `do … while` re-read loop of `mqtt_awsport_network_receive`.

`reads k` is the result of the `k`-th `cy_awsport_network_receive` call:
the returned byte count (negative = transport error) and the wall time
the call took (`exitTimeMs - entryTimeMs`).  `timeoutMs` is
`CY_MQTT_MESSAGE_RECEIVE_TIMEOUT_MS` (a positive compile-time constant
defined in the header, kept as a parameter here).  `remaining` is the
`size_t` variable `remainingTimeMs`; the C code updates it with unsigned
subtraction, so it is reduced modulo `2 ^ 64` here.  `fuel` bounds the
number of iterations (the C loop has no such bound; `none` means the
modelled run was cut off).  The function returns the `int32_t` result:
the propagated negative error or `total_received`. -/
def network_receive_loop (timeoutMs : Nat) (reads : Nat → Int × Nat) :
    Nat → Nat → Nat → Nat → Nat → Option Int
  | 0, _, _, _, _ => none
  | fuel + 1, k, total, remaining, requested =>
      let r := (reads k).1
      let elapsed := (reads k).2
      if r < 0 then some r
      else if r = 0 ∧ total = 0 then some 0
      else
        let total' := if 0 < r then total + r.toNat else total
        let rem1 := if 0 < r then timeoutMs else remaining
        let elapsed' := if 0 < r then 0 else elapsed
        let rem2 := (rem1 + (SIZE_T_MOD - elapsed' % SIZE_T_MOD)) % SIZE_T_MOD
        if total' < requested ∧ 0 < rem2 then
          network_receive_loop timeoutMs reads fuel (k + 1) total' rem2 requested
        else some (Int.ofNat total')

/-- Function `mqtt_awsport_network_receive`: receive `requested` bytes via a
bounded re-read loop.  Entry state: `total_received = 0`,
`remainingTimeMs = CY_MQTT_MESSAGE_RECEIVE_TIMEOUT_MS`. -/
def mqtt_awsport_network_receive (timeoutMs : Nat) (reads : Nat → Int × Nat)
    (requested : Nat) (fuel : Nat) : Option Int :=
  network_receive_loop timeoutMs reads fuel 0 0 timeoutMs requested

/-! ### Session lifecycle (`mqtt_establish_session`, `cy_mqtt_connect`,
`cy_mqtt_disconnect`) and the two background workers -/

/-- Function `mqtt_establish_session`: acquire `process_mutex`, send CONNECT via
`MQTT_Connect` (status `st`, CONNACK `sessionPresent` flag `present`
written into `broker_session_present`), set `mqtt_session_established`
on success, release the mutex.  On codec failure the client state is
unchanged and `CONNECT_FAIL` is returned. -/
def mqtt_establish_session (c : Client) (st : MQTTStatus) (present : Bool) :
    cy_rslt × Client :=
  if st ≠ MQTTStatus.MQTTSuccess then (cy_rslt.connectFail, c)
  else
    (cy_rslt.success,
      { c with mqtt_session_established := true, broker_session_present := present })

/-- The `exit` unwind block of `cy_mqtt_connect`: if a session was
established, send a codec DISCONNECT (ignored) and clear
`mqtt_session_established`; terminate and join the receive thread if
present; transport disconnect and delete (errors ignored).  Returns the
incoming result unchanged. -/
def cy_mqtt_connect_exit (c : Client) (r : cy_rslt) : cy_rslt × Client :=
  let c1 :=
    if c.mqtt_session_established then { c with mqtt_session_established := false } else c
  let c2 := if c1.recv_thread then { c1 with recv_thread := false } else c1
  (r, c2)

/-- The external outcomes consumed by one `cy_mqtt_connect` call. -/
structure ConnectExt where
  tls_ok : Bool
  codec_connect : MQTTStatus
  session_present : Bool
  thread_create_ok : Bool
  resend_ids : List Nat
  resend_send : Nat → MQTTStatus

/-- Function `cy_mqtt_connect` from the point where the argument checks run to
the end of the function.  `will_valid` is the outcome of the will-message
validation; `clean_session` is `connect_info->clean_session`;
`ext.tls_ok` tells whether the TCP/TLS retry loop ultimately succeeded
(that loop touches only the transport, not the client fields modelled
here).  Returns the result, the final client state, and the list of
client states observable by other threads while `connect` runs without
holding `process_mutex` (the state right after `mqtt_establish_session`
returns, having released the mutex).  Note the source computes
`create_clean_session` as the inverse of the requested `clean_session`
(line 1273) and resends stored publishes when
`broker_session_present && !create_clean_session`. -/
def cy_mqtt_connect (c : Client) (will_valid clean_session : Bool) (ext : ConnectExt) :
    cy_rslt × Client × List Client :=
  if c.mqtt_obj_initialized = false then (cy_rslt.objNotInitialized, c, [])
  else if will_valid = false then (cy_rslt.connectFail, c, [])
  else if ext.tls_ok = false then (cy_rslt.connectFail, c, [])
  else
    let create_clean_session := !clean_session
    let est := mqtt_establish_session c ext.codec_connect ext.session_present
    if est.1 ≠ cy_rslt.success then
      let ex := cy_mqtt_connect_exit est.2 est.1
      (ex.1, ex.2, [])
    else
      let c1 := est.2
      if c1.recv_thread = false ∧ ext.thread_create_ok = false then
        let ex := cy_mqtt_connect_exit c1 cy_rslt.rtosError
        (ex.1, ex.2, [c1])
      else
        let c2 := if c1.recv_thread then c1 else { c1 with recv_thread := true }
        if c2.broker_session_present = true ∧ create_clean_session = false then
          let rs := mqtt_handle_publish_resend c2.outgoing_pub_packets ext.resend_ids
            ext.resend_send
          let c3 := { c2 with outgoing_pub_packets := rs.2.1 }
          if rs.1 ≠ cy_rslt.success then
            let ex := cy_mqtt_connect_exit c3 rs.1
            (ex.1, ex.2, [c1])
          else (cy_rslt.success, { c3 with mqtt_conn_status := true }, [c1])
        else
          let c3 := { c2 with
            outgoing_pub_packets := c2.outgoing_pub_packets.map (fun _ => emptyPack) }
          (cy_rslt.success, { c3 with mqtt_conn_status := true }, [c1])

/-- Function `cy_mqtt_disconnect` (called with a non-null handle; RTOS mutex and
thread calls are modelled as succeeding).  The third component records
whether the calling thread still holds `process_mutex` when the function
returns: the mutex is acquired at entry (line 1942) and — mirroring the
source — the `mqtt_obj_initialized` and `mqtt_conn_status` early-error
exits return without releasing it. -/
def cy_mqtt_disconnect (c : Client) : cy_rslt × Client × Bool :=
  if c.mqtt_obj_initialized = false then (cy_rslt.objNotInitialized, c, true)
  else if c.mqtt_conn_status = false then (cy_rslt.notConnected, c, true)
  else
    let c1 := if c.recv_thread then { c with recv_thread := false } else c
    let c2 := { c1 with mqtt_session_established := false, mqtt_conn_status := false }
    (cy_rslt.success, c2, false)

/-- One iteration of the receive pump `mqtt_receive_thread` (between two
sleeps): under `process_mutex`, if a session is established run
`MQTT_ProcessLoop` (status `st`, delivered packets `pkts`); of the fatal
statuses only `MQTTKeepAliveTimeout` changes client state (fires the
`BROKER_DOWN` disconnect upcall and clears `mqtt_session_established`). -/
def mqtt_receive_thread_step (c : Client) (st : MQTTStatus) (pkts : List Incoming) :
    Client :=
  if c.mqtt_session_established then
    let c1 := run_process_loop c pkts
    if st = MQTTStatus.MQTTKeepAliveTimeout then
      { c1 with mqtt_session_established := false }
    else c1
  else c

/-- One dequeue iteration of the disconnect worker
`mqtt_disconn_event_thread` for a valid handle: under `process_mutex`,
if a session is established fire the `NETWORK_DOWN` upcall and clear
`mqtt_session_established`. -/
def mqtt_disconn_event_thread_step (c : Client) : Client :=
  if c.mqtt_session_established then { c with mqtt_session_established := false } else c

/-! ### Process-wide state (`cy_mqtt_init` globals, `cy_mqtt_deinit`,
`cy_mqtt_delete`) -/

/-- The process-wide globals of `cy_mqtt_api.c`.  `mqtt_handle_count` is
a `uint8_t`; `mqtt_handle_database` records which registry slots hold a
handle; the remaining flags track whether the registry mutex, the
network layer, the disconnect-event queue and the disconnect worker
thread are currently initialized. -/
structure LibState where
  mqtt_lib_init_status : Bool
  mqtt_db_mutex_init_status : Bool
  mqtt_handle_count : Nat
  mqtt_handle_database : List Bool
  network_inited : Bool
  disconnect_queue_inited : Bool
  disconnect_thread_running : Bool
deriving DecidableEq, Repr

/-- Function `cy_mqtt_deinit` (RTOS teardown calls modelled as succeeding).
Mirrors the source exactly: if the library or the registry mutex is not
initialized, fail with `DEINIT_FAIL`; if any client still exists
(`mqtt_handle_count != 0`), return early — the source returns the
`result` variable, still `CY_RSLT_SUCCESS`, and performs no teardown;
otherwise tear everything down. -/
def cy_mqtt_deinit (s : LibState) : cy_rslt × LibState :=
  if s.mqtt_lib_init_status = false ∨ s.mqtt_db_mutex_init_status = false then
    (cy_rslt.deinitFail, s)
  else if s.mqtt_handle_count ≠ 0 then
    (cy_rslt.success, s)
  else
    (cy_rslt.success,
      { s with
          mqtt_db_mutex_init_status := false
          network_inited := false
          disconnect_thread_running := false
          disconnect_queue_inited := false
          mqtt_lib_init_status := false })

/-- The outcome of one `cy_mqtt_delete` call: the result code, the
updated process-wide state, and whether the per-client mutex was
destroyed and the object zeroed and freed. -/
structure DeleteOutcome where
  result : cy_rslt
  lib : LibState
  process_mutex_destroyed : Bool
  obj_zeroed_and_freed : Bool
deriving DecidableEq, Repr

/-- Function `cy_mqtt_delete` for a non-null handle (registry-mutex calls
modelled as succeeding).  The source checks only
`mqtt_obj_initialized`: when it is set, the per-client mutex is
destroyed, the registry slot is cleared, the `uint8_t` handle counter is
decremented (with wrap-around) and the object is zeroed and freed —
with no check of `mqtt_conn_status` or `mqtt_session_established`. -/
def cy_mqtt_delete (c : Client) (s : LibState) : DeleteOutcome :=
  if c.mqtt_obj_initialized = false then
    ⟨cy_rslt.objNotInitialized, s, false, false⟩
  else
    ⟨cy_rslt.success,
      { s with
          mqtt_handle_database := s.mqtt_handle_database.set c.mqtt_obj_index false
          mqtt_handle_count := (s.mqtt_handle_count + 255) % 256 },
      true, true⟩

/-! ### Request path (`cy_mqtt_publish`, `cy_mqtt_subscribe`,
`cy_mqtt_unsubscribe`) -/

/-- Codec calls issued by a request-path operation, in order.  The
claims use this trace to state that no codec call was made before an
early-error return. -/
inductive CodecCall where
  | getPacketId
  | publishSend
  | subscribeSend
  | unsubscribeSend
  | processLoop
deriving DecidableEq, Repr

/-- Update slot `i` of the outgoing store in place (no-op out of
range, like the guarded C array access). -/
def setPack (slots : List cy_mqtt_pubpack) (i : Nat)
    (f : cy_mqtt_pubpack → cy_mqtt_pubpack) : List cy_mqtt_pubpack :=
  match slots[i]? with
  | some s => slots.set i (f s)
  | none => slots

/-- Result of a cooperative ACK-wait inner loop. -/
structure WaitOut where
  status : MQTTStatus
  client : Client
  nextK : Nat
  trace : List CodecCall
deriving Repr

/-- The cooperative ACK-wait inner loop shared (textually) by the three
request operations: drive `MQTT_ProcessLoop` (`proc k` gives the status
and the packets dispatched to `mqtt_event_callback` during call `k`),
break on a codec failure or once `done` holds on the updated client
state, and otherwise decrement the `timeout` budget by
`CY_MQTT_SOCKET_RECEIVE_TIMEOUT_MS = 1` and loop while it is positive
(`do … while (timeout > 0)`). -/
def mqtt_ack_wait (proc : Nat → MQTTStatus × List Incoming) (done : Client → Bool)
    (k timeout : Nat) (c : Client) : WaitOut :=
  let st := (proc k).1
  let c' := run_process_loop c (proc k).2
  if st ≠ MQTTStatus.MQTTSuccess then ⟨st, c', k + 1, [CodecCall.processLoop]⟩
  else if done c' then ⟨st, c', k + 1, [CodecCall.processLoop]⟩
  else if h : 1 < timeout then
    let r := mqtt_ack_wait proc done (k + 1) (timeout - 1) c'
    ⟨r.status, r.client, r.nextK, CodecCall.processLoop :: r.trace⟩
  else ⟨st, c', k + 1, [CodecCall.processLoop]⟩
  termination_by timeout
  decreasing_by omega

/-- Result of a request retry loop. -/
structure AttemptOut where
  result : cy_rslt
  status : MQTTStatus
  client : Client
  nextK : Nat
  trace : List CodecCall
deriving Repr

/-- The publish retry `do … while` of `cy_mqtt_publish`.  `remaining`
is `CY_MQTT_MAX_RETRY_VALUE - retry`; `attempt` indexes `sendRes` (the
per-attempt `MQTT_Publish` status); `idx` is `publishIndex`;
`resPrev` is the sticky `result` variable.  Each iteration clears
`pub_ack_status.puback_status`, sends, and for QoS ≠ 0 drives the ACK
wait; on a missed ACK the status is forced to `MQTTRecvFailed` so the
loop retries; `dup` is set on the stored packet after every successful
send. -/
def publish_attempts (sendRes : Nat → MQTTStatus)
    (proc : Nat → MQTTStatus × List Incoming) (ackTimeout idx : Nat)
    (remaining attempt k : Nat) (c : Client) (resPrev : cy_rslt) : AttemptOut :=
  let c0 := { c with pub_ack_received := false }
  let stSend := sendRes attempt
  if stSend ≠ MQTTStatus.MQTTSuccess then
    if h : 1 < remaining then
      let r := publish_attempts sendRes proc ackTimeout idx (remaining - 1) (attempt + 1) k
        c0 cy_rslt.publishFail
      ⟨r.result, r.status, r.client, r.nextK, CodecCall.publishSend :: r.trace⟩
    else ⟨cy_rslt.publishFail, stSend, c0, k, [CodecCall.publishSend]⟩
  else
    let slotQos := (c0.outgoing_pub_packets[idx]?.getD emptyPack).qos
    if slotQos ≠ MQTTQoS.MQTTQoS0 then
      let w := mqtt_ack_wait proc (fun cl => cl.pub_ack_received) k ackTimeout c0
      let res2 :=
        if w.status ≠ MQTTStatus.MQTTSuccess then cy_rslt.publishFail
        else if w.client.pub_ack_received then cy_rslt.success else resPrev
      let res3 := if w.client.pub_ack_received = false then cy_rslt.publishFail else res2
      let stf := if w.client.pub_ack_received = false then MQTTStatus.MQTTRecvFailed
        else w.status
      let c1 := { w.client with
        outgoing_pub_packets := setPack w.client.outgoing_pub_packets idx
          (fun s => { s with dup := true }) }
      if stf ≠ MQTTStatus.MQTTSuccess then
        if h : 1 < remaining then
          let r := publish_attempts sendRes proc ackTimeout idx (remaining - 1)
            (attempt + 1) w.nextK c1 res3
          ⟨r.result, r.status, r.client, r.nextK,
            CodecCall.publishSend :: (w.trace ++ r.trace)⟩
        else ⟨res3, stf, c1, w.nextK, CodecCall.publishSend :: w.trace⟩
      else ⟨res3, stf, c1, w.nextK, CodecCall.publishSend :: w.trace⟩
    else
      let c1 := { c0 with
        outgoing_pub_packets := setPack c0.outgoing_pub_packets idx
          (fun s => { s with dup := true }) }
      ⟨cy_rslt.success, stSend, c1, k, [CodecCall.publishSend]⟩
  termination_by remaining
  decreasing_by all_goals omega

/-- Function `cy_mqtt_publish`.  Here `argsOk` is the null-pointer validation of
handle and message; `qosRaw` is `pubmsg->qos` as a raw value (0/1/2
supported); `packetId` is the `MQTT_GetPacketId` result.  The topic and
payload pointers copied into the slot are not part of the modelled slot
state.  Returns the result, the final client state and the codec calls
issued. -/
def cy_mqtt_publish (maxRetry ackTimeout : Nat) (c : Client) (argsOk : Bool)
    (qosRaw : Nat) (packetId : Nat) (sendRes : Nat → MQTTStatus)
    (proc : Nat → MQTTStatus × List Incoming) : cy_rslt × Client × List CodecCall :=
  if argsOk = false then (cy_rslt.badarg, c, [])
  else if c.mqtt_obj_initialized = false then (cy_rslt.objNotInitialized, c, [])
  else if c.mqtt_session_established = false then (cy_rslt.notConnected, c, [])
  else
    match c.outgoing_pub_packets.findIdx? (fun s => s.packetid == 0) with
    | none => (cy_rslt.publishFail, c, [])
    | some idx =>
        if 2 < qosRaw then (cy_rslt.publishFail, c, [])
        else
          let q := if qosRaw = 0 then MQTTQoS.MQTTQoS0
            else if qosRaw = 1 then MQTTQoS.MQTTQoS1 else MQTTQoS.MQTTQoS2
          let c1 := { c with
            outgoing_pub_packets := setPack c.outgoing_pub_packets idx
              (fun s => { s with qos := q }) }
          let c2 := { c1 with
            outgoing_pub_packets := setPack c1.outgoing_pub_packets idx
              (fun s => { s with packetid := packetId }),
            pub_ack_packetid := packetId }
          let r := publish_attempts sendRes proc ackTimeout idx maxRetry 0 0 c2
            cy_rslt.success
          let trace := CodecCall.getPacketId :: r.trace
          if r.result ≠ cy_rslt.success then
            (r.result,
              { r.client with outgoing_pub_packets :=
                  mqtt_cleanup_outgoing_publish r.client.outgoing_pub_packets idx },
              trace)
          else if (r.client.outgoing_pub_packets[idx]?.getD emptyPack).qos
              = MQTTQoS.MQTTQoS0 then
            (r.result,
              { r.client with outgoing_pub_packets :=
                  mqtt_cleanup_outgoing_publish r.client.outgoing_pub_packets idx },
              trace)
          else (r.result, r.client, trace)

/-- Per-topic SUBACK code → the caller-visible `allocated_qos` value
(`MQTTSubAckFailure → INVALID`, otherwise the granted QoS). -/
def suback_to_allocated_qos : MQTTSubAckStatus → cy_mqtt_qos
  | MQTTSubAckStatus.failure => cy_mqtt_qos.invalid
  | MQTTSubAckStatus.successQos0 => cy_mqtt_qos.qos0
  | MQTTSubAckStatus.successQos1 => cy_mqtt_qos.qos1
  | MQTTSubAckStatus.successQos2 => cy_mqtt_qos.qos2

/-- Result of the subscribe retry loop, including the `allocated_qos`
values written back to the caller once a SUBACK completes a request. -/
structure SubAttemptOut where
  result : cy_rslt
  status : MQTTStatus
  client : Client
  nextK : Nat
  trace : List CodecCall
  allocated : Option (List cy_mqtt_qos)
deriving Repr

/-- The subscribe retry `do … while` of `cy_mqtt_subscribe`: each
iteration zeroes `sub_ack_status` (`memset`), sets `num_of_subs_in_req`
to the request's topic count, sends the SUBSCRIBE, marks the first
`subCount` ACK slots `MQTTSubAckFailure`, and drives the ACK wait until
the SUBACK handler clears `num_of_subs_in_req`; completion translates
the received codes into `allocated_qos` and succeeds iff at least one
topic was granted. -/
def subscribe_attempts (sendRes : Nat → MQTTStatus)
    (proc : Nat → MQTTStatus × List Incoming) (ackTimeout subCount : Nat)
    (remaining attempt k : Nat) (c : Client) : SubAttemptOut :=
  let c0 := { c with
    sub_ack_status := List.replicate c.sub_ack_status.length MQTTSubAckStatus.successQos0,
    num_of_subs_in_req := subCount }
  let stSend := sendRes attempt
  if stSend ≠ MQTTStatus.MQTTSuccess then
    if h : 1 < remaining then
      let r := subscribe_attempts sendRes proc ackTimeout subCount (remaining - 1)
        (attempt + 1) k c0
      ⟨r.result, r.status, r.client, r.nextK, CodecCall.subscribeSend :: r.trace,
        r.allocated⟩
    else ⟨cy_rslt.subscribeFail, stSend, c0, k, [CodecCall.subscribeSend], none⟩
  else
    let c1 := { c0 with
      sub_ack_status := List.replicate subCount MQTTSubAckStatus.failure
        ++ c0.sub_ack_status.drop subCount }
    let w := mqtt_ack_wait proc (fun cl => cl.num_of_subs_in_req == 0) k ackTimeout c1
    if w.status ≠ MQTTStatus.MQTTSuccess then
      if h : 1 < remaining then
        let r := subscribe_attempts sendRes proc ackTimeout subCount (remaining - 1)
          (attempt + 1) w.nextK w.client
        ⟨r.result, r.status, r.client, r.nextK,
          CodecCall.subscribeSend :: (w.trace ++ r.trace), r.allocated⟩
      else ⟨cy_rslt.subscribeFail, w.status, w.client, w.nextK,
        CodecCall.subscribeSend :: w.trace, none⟩
    else if w.client.num_of_subs_in_req = 0 then
      let codes := w.client.sub_ack_status.take subCount
      let res := if codes.any (fun code => code ≠ MQTTSubAckStatus.failure) then
          cy_rslt.success
        else cy_rslt.subscribeFail
      ⟨res, w.status, w.client, w.nextK, CodecCall.subscribeSend :: w.trace,
        some (codes.map suback_to_allocated_qos)⟩
    else
      if h : 1 < remaining then
        let r := subscribe_attempts sendRes proc ackTimeout subCount (remaining - 1)
          (attempt + 1) w.nextK w.client
        ⟨r.result, r.status, r.client, r.nextK,
          CodecCall.subscribeSend :: (w.trace ++ r.trace), r.allocated⟩
      else ⟨cy_rslt.subscribeFail, MQTTStatus.MQTTRecvFailed, w.client, w.nextK,
        CodecCall.subscribeSend :: w.trace, none⟩
  termination_by remaining
  decreasing_by all_goals omega

/-- Function `cy_mqtt_subscribe`.  Here `maxSubs` is the compile-time
`CY_MQTT_MAX_OUTGOING_SUBSCRIBES`; `subQos` carries the QoS of each
requested topic (`none` = a value the translation loop rejects);
`argsOk` is the null-pointer validation of handle and list; `mallocOk`
is the `sub_list` allocation outcome; `packetId` is the
`MQTT_GetPacketId` result.  Note the leading argument check already
rejects `sub_count < 1` and `sub_count > maxSubs` with `BADARG`, making
the later `SUBSCRIBE_FAIL` guard unreachable.  The `allocated_qos`
values progressively written into the caller's array before the send
are not modelled; only the values produced by a completed SUBACK are
returned. -/
def cy_mqtt_subscribe (maxSubs maxRetry ackTimeout : Nat) (c : Client) (argsOk : Bool)
    (subQos : List (Option MQTTQoS)) (mallocOk : Bool) (packetId : Nat)
    (sendRes : Nat → MQTTStatus) (proc : Nat → MQTTStatus × List Incoming) :
    cy_rslt × Client × List CodecCall × Option (List cy_mqtt_qos) :=
  let sub_count := subQos.length
  if argsOk = false ∨ sub_count < 1 ∨ maxSubs < sub_count then
    (cy_rslt.badarg, c, [], none)
  else if c.mqtt_obj_initialized = false then (cy_rslt.objNotInitialized, c, [], none)
  else if c.mqtt_session_established = false then (cy_rslt.notConnected, c, [], none)
  else if maxSubs < sub_count then (cy_rslt.subscribeFail, c, [], none)
  else if mallocOk = false then (cy_rslt.nomem, c, [], none)
  else if subQos.any (fun q => q.isNone) then (cy_rslt.subscribeFail, c, [], none)
  else
    let c1 := { c with sent_packet_id := packetId }
    let r := subscribe_attempts sendRes proc ackTimeout sub_count maxRetry 0 0 c1
    (r.result, r.client, CodecCall.getPacketId :: r.trace, r.allocated)

/-- The unsubscribe retry `do … while` of `cy_mqtt_unsubscribe`: each
iteration clears the `unsub_ack_received` rendezvous bit, sends the
UNSUBSCRIBE, and drives the ACK wait until the UNSUBACK handler sets the
bit; a missed ACK forces `MQTTRecvFailed` to retry. -/
def unsubscribe_attempts (sendRes : Nat → MQTTStatus)
    (proc : Nat → MQTTStatus × List Incoming) (ackTimeout : Nat)
    (remaining attempt k : Nat) (c : Client) (resPrev : cy_rslt) : AttemptOut :=
  let c0 := { c with unsub_ack_received := false }
  let stSend := sendRes attempt
  if stSend ≠ MQTTStatus.MQTTSuccess then
    if h : 1 < remaining then
      let r := unsubscribe_attempts sendRes proc ackTimeout (remaining - 1) (attempt + 1)
        k c0 cy_rslt.unsubscribeFail
      ⟨r.result, r.status, r.client, r.nextK, CodecCall.unsubscribeSend :: r.trace⟩
    else ⟨cy_rslt.unsubscribeFail, stSend, c0, k, [CodecCall.unsubscribeSend]⟩
  else
    let w := mqtt_ack_wait proc (fun cl => cl.unsub_ack_received) k ackTimeout c0
    let res2 :=
      if w.status ≠ MQTTStatus.MQTTSuccess then cy_rslt.unsubscribeFail
      else if w.client.unsub_ack_received then cy_rslt.success else resPrev
    let res3 := if w.client.unsub_ack_received = false then cy_rslt.unsubscribeFail
      else res2
    let stf := if w.client.unsub_ack_received = false then MQTTStatus.MQTTRecvFailed
      else w.status
    if stf ≠ MQTTStatus.MQTTSuccess then
      if h : 1 < remaining then
        let r := unsubscribe_attempts sendRes proc ackTimeout (remaining - 1)
          (attempt + 1) w.nextK w.client res3
        ⟨r.result, r.status, r.client, r.nextK,
          CodecCall.unsubscribeSend :: (w.trace ++ r.trace)⟩
      else ⟨res3, stf, w.client, w.nextK, CodecCall.unsubscribeSend :: w.trace⟩
    else ⟨res3, stf, w.client, w.nextK, CodecCall.unsubscribeSend :: w.trace⟩
  termination_by remaining
  decreasing_by all_goals omega

/-- Function `cy_mqtt_unsubscribe`.  Parameters as in `cy_mqtt_subscribe`; the
leading argument check rejects only null pointers and
`unsub_count < 1`, while the `maxSubs` bound is enforced by a separate
guard returning `UNSUBSCRIBE_FAIL`. -/
def cy_mqtt_unsubscribe (maxSubs maxRetry ackTimeout : Nat) (c : Client) (argsOk : Bool)
    (unsubQos : List (Option MQTTQoS)) (mallocOk : Bool) (packetId : Nat)
    (sendRes : Nat → MQTTStatus) (proc : Nat → MQTTStatus × List Incoming) :
    cy_rslt × Client × List CodecCall :=
  let unsub_count := unsubQos.length
  if argsOk = false ∨ unsub_count < 1 then (cy_rslt.badarg, c, [])
  else if c.mqtt_obj_initialized = false then (cy_rslt.objNotInitialized, c, [])
  else if c.mqtt_session_established = false then (cy_rslt.notConnected, c, [])
  else if maxSubs < unsub_count then (cy_rslt.unsubscribeFail, c, [])
  else if mallocOk = false then (cy_rslt.nomem, c, [])
  else if unsubQos.any (fun q => q.isNone) then (cy_rslt.unsubscribeFail, c, [])
  else
    let c1 := { c with sent_packet_id := packetId }
    let r := unsubscribe_attempts sendRes proc ackTimeout maxRetry 0 0 c1
      cy_rslt.success
    (r.result, r.client, CodecCall.getPacketId :: r.trace)

/-! ### Derived notions used by the theorems -/

/-- The packet ids stored in the outgoing PUBLISH store, in slot order. -/
def packetids (slots : List cy_mqtt_pubpack) : List Nat :=
  slots.map (fun s => s.packetid)

/-- QoS of the first slot holding `pid` (if any). -/
def qosOf (slots : List cy_mqtt_pubpack) (pid : Nat) : Option MQTTQoS :=
  (slots.find? (fun s => s.packetid == pid)).map (fun s => s.qos)

/-- Set `dup` on every slot that stores `pid` with QoS ≠ 0 (the
per-cursor-id effect of the resend scan on the store). -/
def updateDup (pid : Nat) (slots : List cy_mqtt_pubpack) : List cy_mqtt_pubpack :=
  slots.map (fun t =>
    if t.packetid = pid ∧ t.qos ≠ MQTTQoS.MQTTQoS0 then { t with dup := true } else t)

/-- Spec invariant 4 of the design: `session_established ⇒ conn_status`. -/
def SessionConnInv (c : Client) : Prop :=
  c.mqtt_session_established = true → c.mqtt_conn_status = true

/-- A freshly created, never connected client. -/
def freshClient : Client :=
  ⟨true, false, false, false, false, 0, 0, [], false, 0, false, 0, []⟩

/-- An initialized client whose session is established and connected. -/
def connectedClient : Client :=
  ⟨true, true, false, true, true, 0, 0, [], false, 0, false, 0, []⟩

/-- A process-wide state with one live client. -/
def oneClientLib : LibState := ⟨true, true, 1, [true], true, true, true⟩

/-- A client waiting for the PUBACK of packet id 5. -/
def awaitingPubAckClient : Client :=
  ⟨true, true, false, true, true, 0, 0, [], false, 5, false, 0,
    [⟨5, MQTTQoS.MQTTQoS1, false⟩]⟩

/-- The external outcomes of a clean, successful `cy_mqtt_connect`. -/
def cleanConnectExt : ConnectExt :=
  ⟨true, MQTTStatus.MQTTSuccess, false, true, [], fun _ => MQTTStatus.MQTTSuccess⟩

/-- Claim C2 store: two stashed QoS1 publishes. -/
def twoQos1Slots : List cy_mqtt_pubpack :=
  [⟨1, MQTTQoS.MQTTQoS1, false⟩, ⟨2, MQTTQoS.MQTTQoS1, false⟩]

/-- Claim C2 send behavior: the re-publish of packet id 1 fails. -/
def failFirstSend : Nat → MQTTStatus :=
  fun pid => if pid = 1 then MQTTStatus.MQTTSendFailed else MQTTStatus.MQTTSuccess

/-- The transport behavior of the C6 failing input: the first read
delivers one byte instantly, the second read delivers nothing and takes
`T + 1` ms — overshooting the whole remaining budget — and later reads
deliver one byte instantly. -/
def c6reads (T : Nat) : Nat → Int × Nat :=
  fun k => if k = 0 then (1, 0) else if k = 1 then (0, T + 1) else (1, 0)

/-! ## Claims -/

/-- Claim C1 (code bug demonstration).  The claim says `cy_mqtt_deinit`
fails with `DEINIT_FAIL` when a client still exists and performs no
teardown.  The source (line 2096-2099) indeed performs no teardown, but
it returns the `result` variable, which still holds `CY_RSLT_SUCCESS`:
deinit reports success instead of `DEINIT_FAIL` while the log line says
deinit cannot be done. -/
theorem cy_mqtt_deinit_client_exists_returns_success :
    ∀ s : LibState, s.mqtt_lib_init_status = true → s.mqtt_db_mutex_init_status = true →
    s.mqtt_handle_count ≠ 0 → cy_mqtt_deinit s = (cy_rslt.success, s) := by
  intro s h1 h2 h3
  simp [cy_mqtt_deinit, h1, h2, h3]

/-- Witness for C1: a library state with one live client. -/
theorem cy_mqtt_deinit_client_exists_witness :
    cy_mqtt_deinit oneClientLib = (cy_rslt.success, oneClientLib) :=
  cy_mqtt_deinit_client_exists_returns_success oneClientLib rfl rfl (by decide)

/-- Claim C4 (code bug demonstration).  The claim (and the spec's
design note) require `cy_mqtt_disconnect` to release `process_mutex` on
every exit path.  The source acquires the mutex at line 1942 and the
early-error exits at lines 1950-1960 (`OBJ_NOT_INITIALIZED`,
`NOT_CONNECTED`) return while still holding it. -/
theorem cy_mqtt_disconnect_early_exit_keeps_mutex :
    ∀ c : Client, c.mqtt_obj_initialized = false ∨ c.mqtt_conn_status = false →
    (cy_mqtt_disconnect c).2.2 = true ∧ (cy_mqtt_disconnect c).2.1 = c ∧
    ((cy_mqtt_disconnect c).1 = cy_rslt.objNotInitialized ∨
      (cy_mqtt_disconnect c).1 = cy_rslt.notConnected) := by
  intro c h
  by_cases h2 : c.mqtt_obj_initialized = false
  · simp [cy_mqtt_disconnect, h2]
  · rcases h with h | h
    · exact absurd h h2
    · simp [cy_mqtt_disconnect, h2, h]

/-- Witness for C4: an initialized but not connected client. -/
theorem cy_mqtt_disconnect_early_exit_keeps_mutex_witness :
    (cy_mqtt_disconnect freshClient).2.2 = true ∧
    (cy_mqtt_disconnect freshClient).2.1 = freshClient ∧
    ((cy_mqtt_disconnect freshClient).1 = cy_rslt.objNotInitialized ∨
      (cy_mqtt_disconnect freshClient).1 = cy_rslt.notConnected) :=
  cy_mqtt_disconnect_early_exit_keeps_mutex freshClient (Or.inr rfl)

/-- Claim C10 (confirmed).  `cy_mqtt_delete` checks only
`mqtt_obj_initialized`: for any initialized client — including one with
`mqtt_conn_status` and `mqtt_session_established` still true — it
destroys the per-client mutex, clears the registry slot, decrements the
handle count (as a wrapping `uint8_t`), zeroes and frees the object and
returns success.  No `NOT_CONNECTED` (or other) error is possible. -/
theorem cy_mqtt_delete_ignores_connection_state :
    ∀ (c : Client) (s : LibState), c.mqtt_obj_initialized = true →
    cy_mqtt_delete c s =
      ⟨cy_rslt.success,
        { s with
            mqtt_handle_database := s.mqtt_handle_database.set c.mqtt_obj_index false
            mqtt_handle_count := (s.mqtt_handle_count + 255) % 256 },
        true, true⟩ := by
  intro c s h
  simp [cy_mqtt_delete, h]

/-- Witness for C10: a still-connected client is deleted successfully. -/
theorem cy_mqtt_delete_ignores_connection_state_witness :
    connectedClient.mqtt_conn_status = true ∧
    cy_mqtt_delete connectedClient oneClientLib =
      ⟨cy_rslt.success,
        { oneClientLib with
            mqtt_handle_database :=
              oneClientLib.mqtt_handle_database.set connectedClient.mqtt_obj_index false
            mqtt_handle_count := (oneClientLib.mqtt_handle_count + 255) % 256 },
        true, true⟩ :=
  ⟨rfl, cy_mqtt_delete_ignores_connection_state connectedClient oneClientLib rfl⟩

/-- Lemma: `copyCodes` keeps the destination length. -/
theorem copyCodes_length (dst src : List MQTTSubAckStatus) :
    (copyCodes dst src).length = dst.length := by
  induction dst generalizing src with
  | nil => cases src <;> simp [copyCodes]
  | cons d ds ih =>
      cases src with
      | nil => simp [copyCodes]
      | cons s ss => simp [copyCodes, ih]

/-- Entries below the source length are overwritten by the source. -/
theorem copyCodes_getElem_lt (dst src : List MQTTSubAckStatus) (i : Nat)
    (h1 : i < src.length) (h2 : i < dst.length) :
    (copyCodes dst src)[i]? = src[i]? := by
  induction dst generalizing src i with
  | nil => simp at h2
  | cons d ds ih =>
      cases src with
      | nil => simp at h1
      | cons s ss =>
          cases i with
          | zero => simp [copyCodes]
          | succ n =>
              simp only [copyCodes, List.getElem?_cons_succ]
              exact ih ss n (by simpa using h1) (by simpa using h2)

/-- Entries at or above the source length keep their old value. -/
theorem copyCodes_getElem_ge (dst src : List MQTTSubAckStatus) (i : Nat)
    (h1 : src.length ≤ i) :
    (copyCodes dst src)[i]? = dst[i]? := by
  induction dst generalizing src i with
  | nil => cases src <;> simp [copyCodes]
  | cons d ds ih =>
      cases src with
      | nil => simp [copyCodes]
      | cons s ss =>
          cases i with
          | zero => simp at h1
          | succ n =>
              simp only [copyCodes, List.getElem?_cons_succ]
              exact ih ss n (by simpa using h1)

/-- Claim C5 (confirmed).  When a SUBACK with a matching packet id is
dispatched and the codec reports its status codes successfully: a count
different from `num_of_subs_in_req` clears `num_of_subs_in_req`, fails
with `MQTT_ERROR` and leaves `sub_ack_status` untouched; a matching
count copies exactly the reported codes into `sub_ack_status[0..num)`
(the remaining entries keep their values) and then clears
`num_of_subs_in_req`. -/
theorem mqtt_update_suback_status_spec :
    ∀ (c : Client) (codes : List MQTTSubAckStatus) (pid : Nat) (deser : MQTTStatus),
    c.sent_packet_id = pid →
    c.num_of_subs_in_req ≤ c.sub_ack_status.length →
    (codes.length ≠ c.num_of_subs_in_req →
      mqtt_event_callback c PacketType.suback deser pid MQTTStatus.MQTTSuccess codes
          = { c with num_of_subs_in_req := 0 } ∧
      (mqtt_update_suback_status c MQTTStatus.MQTTSuccess codes).1 = cy_rslt.mqttError) ∧
    (codes.length = c.num_of_subs_in_req →
      (mqtt_update_suback_status c MQTTStatus.MQTTSuccess codes).1 = cy_rslt.success ∧
      (mqtt_event_callback c PacketType.suback deser pid MQTTStatus.MQTTSuccess
          codes).num_of_subs_in_req = 0 ∧
      (∀ i, i < codes.length →
        (mqtt_event_callback c PacketType.suback deser pid MQTTStatus.MQTTSuccess
            codes).sub_ack_status[i]? = codes[i]?) ∧
      (∀ i, codes.length ≤ i →
        (mqtt_event_callback c PacketType.suback deser pid MQTTStatus.MQTTSuccess
            codes).sub_ack_status[i]? = c.sub_ack_status[i]?)) := by
  intro c codes pid deser hpid hlen
  constructor
  · intro hne
    constructor
    · simp [mqtt_event_callback, hpid, mqtt_update_suback_status, hne]
    · simp [mqtt_update_suback_status, hne]
  · intro heq
    refine ⟨?_, ?_, ?_, ?_⟩
    · simp [mqtt_update_suback_status, heq]
    · simp [mqtt_event_callback, hpid, mqtt_update_suback_status, heq]
    · intro i hi
      simp only [mqtt_event_callback, hpid]
      simp [mqtt_update_suback_status, heq]
      exact copyCodes_getElem_lt c.sub_ack_status codes i hi (by omega)
    · intro i hi
      simp only [mqtt_event_callback, hpid]
      simp [mqtt_update_suback_status, heq]
      exact copyCodes_getElem_ge c.sub_ack_status codes i hi

/-- Witness for C5: a two-topic request completed by a two-code
SUBACK, and failed by a one-code SUBACK. -/
theorem mqtt_update_suback_status_spec_witness :
    (mqtt_update_suback_status
        { connectedClient with
            num_of_subs_in_req := 2
            sub_ack_status := [MQTTSubAckStatus.successQos0, MQTTSubAckStatus.successQos0]
            sent_packet_id := 9 }
        MQTTStatus.MQTTSuccess
        [MQTTSubAckStatus.successQos1, MQTTSubAckStatus.failure]).1 = cy_rslt.success ∧
    (mqtt_update_suback_status
        { connectedClient with
            num_of_subs_in_req := 2
            sub_ack_status := [MQTTSubAckStatus.successQos0, MQTTSubAckStatus.successQos0]
            sent_packet_id := 9 }
        MQTTStatus.MQTTSuccess [MQTTSubAckStatus.successQos1]).1 = cy_rslt.mqttError :=
  ⟨((mqtt_update_suback_status_spec
      { connectedClient with
          num_of_subs_in_req := 2
          sub_ack_status := [MQTTSubAckStatus.successQos0, MQTTSubAckStatus.successQos0]
          sent_packet_id := 9 }
      [MQTTSubAckStatus.successQos1, MQTTSubAckStatus.failure] 9 MQTTStatus.MQTTSuccess
      rfl (by decide)).2 (by decide)).1,
   ((mqtt_update_suback_status_spec
      { connectedClient with
          num_of_subs_in_req := 2
          sub_ack_status := [MQTTSubAckStatus.successQos0, MQTTSubAckStatus.successQos0]
          sent_packet_id := 9 }
      [MQTTSubAckStatus.successQos1] 9 MQTTStatus.MQTTSuccess
      rfl (by decide)).1 (by decide)).2⟩

/-- Claim C9 counterexample.  The claim says `pub_ack_status.acked` is
set to `(packet_id == pub_ack_status.packet_id)` in every case,
independent of the deserialization result.  Dispatching a PUBACK for
the expected packet id 5 with a failed deserialization result leaves
the flag `false` (the source only writes it under
`deserializationResult == MQTTSuccess`), while the claim demands
`true`; the slot cleanup does happen. -/
theorem mqtt_event_callback_puback_deser_failure_counterexample :
    awaitingPubAckClient.pub_ack_packetid = 5 ∧
    awaitingPubAckClient.pub_ack_received = false ∧
    (mqtt_event_callback awaitingPubAckClient PacketType.puback
        MQTTStatus.MQTTBadResponse 5 MQTTStatus.MQTTSuccess []).pub_ack_received = false ∧
    (mqtt_event_callback awaitingPubAckClient PacketType.puback
        MQTTStatus.MQTTBadResponse 5 MQTTStatus.MQTTSuccess []).outgoing_pub_packets
      = [emptyPack] := by decide

/-- Claim C9 as amended.  On a PUBACK or PUBREC with a nonzero packet
id: `pub_ack_status.acked` is set to
`(packet_id == pub_ack_status.packet_id)` only when the
deserialization result is `MQTTSuccess` and keeps its previous value
otherwise; the first slot of `outgoing_pub_packets` whose packet id
matches is cleaned (zeroed) in every case. -/
theorem mqtt_event_callback_pub_ack_spec :
    ∀ (ty : PacketType) (c : Client) (st : MQTTStatus) (pid : Nat)
      (sstat : MQTTStatus) (scodes : List MQTTSubAckStatus),
    (ty = PacketType.puback ∨ ty = PacketType.pubrec) → pid ≠ 0 →
    (st = MQTTStatus.MQTTSuccess →
      (mqtt_event_callback c ty st pid sstat scodes).pub_ack_received
        = decide (pid = c.pub_ack_packetid)) ∧
    (st ≠ MQTTStatus.MQTTSuccess →
      (mqtt_event_callback c ty st pid sstat scodes).pub_ack_received
        = c.pub_ack_received) ∧
    (mqtt_event_callback c ty st pid sstat scodes).outgoing_pub_packets
        = zeroFirstMatch c.outgoing_pub_packets pid ∧
    (mqtt_event_callback c ty st pid sstat scodes).pub_ack_packetid
        = c.pub_ack_packetid := by
  intro ty c st pid sstat scodes hty hpid
  have harm : mqtt_event_callback c ty st pid sstat scodes
      = mqtt_handle_pub_ack_packet c st pid := by
    rcases hty with h | h <;> subst h <;> rfl
  rw [harm]
  by_cases hst : st = MQTTStatus.MQTTSuccess
  · subst hst
    simp [mqtt_handle_pub_ack_packet, mqtt_cleanup_outgoing_publish_with_packet_id, hpid]
  · simp [mqtt_handle_pub_ack_packet, mqtt_cleanup_outgoing_publish_with_packet_id,
      hpid, hst]

/-- Witness for the amended C9: a successful PUBACK for the expected id
sets the flag and cleans the slot. -/
theorem mqtt_event_callback_pub_ack_spec_witness :
    ((MQTTStatus.MQTTSuccess = MQTTStatus.MQTTSuccess →
      (mqtt_event_callback awaitingPubAckClient PacketType.puback
          MQTTStatus.MQTTSuccess 5 MQTTStatus.MQTTSuccess []).pub_ack_received
        = decide (5 = awaitingPubAckClient.pub_ack_packetid)) ∧
    (MQTTStatus.MQTTSuccess ≠ MQTTStatus.MQTTSuccess →
      (mqtt_event_callback awaitingPubAckClient PacketType.puback
          MQTTStatus.MQTTSuccess 5 MQTTStatus.MQTTSuccess []).pub_ack_received
        = awaitingPubAckClient.pub_ack_received) ∧
    (mqtt_event_callback awaitingPubAckClient PacketType.puback
        MQTTStatus.MQTTSuccess 5 MQTTStatus.MQTTSuccess []).outgoing_pub_packets
        = zeroFirstMatch awaitingPubAckClient.outgoing_pub_packets 5 ∧
    (mqtt_event_callback awaitingPubAckClient PacketType.puback
        MQTTStatus.MQTTSuccess 5 MQTTStatus.MQTTSuccess []).pub_ack_packetid
        = awaitingPubAckClient.pub_ack_packetid) :=
  mqtt_event_callback_pub_ack_spec PacketType.puback awaitingPubAckClient
    MQTTStatus.MQTTSuccess 5 MQTTStatus.MQTTSuccess [] (Or.inl rfl) (by decide)

/-- Claim C7 (confirmed).  For an initialized client whose session is
not established (after any disconnect and before a fresh connect
succeeds), each of `cy_mqtt_publish`, `cy_mqtt_subscribe` and
`cy_mqtt_unsubscribe` — called with otherwise valid arguments —
returns `NOT_CONNECTED` with the client state unchanged and no codec
call issued. -/
theorem requests_fail_not_connected :
    ∀ (maxSubs maxRetry ackTimeout qosRaw packetId : Nat) (c : Client)
      (sendRes : Nat → MQTTStatus) (proc : Nat → MQTTStatus × List Incoming)
      (subQos unsubQos : List (Option MQTTQoS)) (mallocOk : Bool),
    c.mqtt_obj_initialized = true → c.mqtt_session_established = false →
    1 ≤ subQos.length → subQos.length ≤ maxSubs → 1 ≤ unsubQos.length →
    cy_mqtt_publish maxRetry ackTimeout c true qosRaw packetId sendRes proc
        = (cy_rslt.notConnected, c, []) ∧
    cy_mqtt_subscribe maxSubs maxRetry ackTimeout c true subQos mallocOk packetId
        sendRes proc = (cy_rslt.notConnected, c, [], none) ∧
    cy_mqtt_unsubscribe maxSubs maxRetry ackTimeout c true unsubQos mallocOk packetId
        sendRes proc = (cy_rslt.notConnected, c, []) := by
  intro maxSubs maxRetry ackTimeout qosRaw packetId c sendRes proc subQos unsubQos
    mallocOk hinit hsess hs1 hs2 hu1
  refine ⟨?_, ?_, ?_⟩
  · simp [cy_mqtt_publish, hinit, hsess]
  · have hc1 : ¬ subQos.length < 1 := by omega
    have hc2 : ¬ maxSubs < subQos.length := by omega
    simp [cy_mqtt_subscribe, hinit, hsess, hc1, hc2]
  · have hc1 : ¬ unsubQos.length < 1 := by omega
    simp [cy_mqtt_unsubscribe, hinit, hsess, hc1]

/-- Witness for C7 at a concrete disconnected client. -/
theorem requests_fail_not_connected_witness :
    cy_mqtt_publish 3 5 freshClient true 1 7 (fun _ => MQTTStatus.MQTTSuccess)
        (fun _ => (MQTTStatus.MQTTSuccess, []))
      = (cy_rslt.notConnected, freshClient, []) ∧
    cy_mqtt_subscribe 2 3 5 freshClient true [some MQTTQoS.MQTTQoS1] true 7
        (fun _ => MQTTStatus.MQTTSuccess) (fun _ => (MQTTStatus.MQTTSuccess, []))
      = (cy_rslt.notConnected, freshClient, [], none) ∧
    cy_mqtt_unsubscribe 2 3 5 freshClient true [some MQTTQoS.MQTTQoS1] true 7
        (fun _ => MQTTStatus.MQTTSuccess) (fun _ => (MQTTStatus.MQTTSuccess, []))
      = (cy_rslt.notConnected, freshClient, []) :=
  requests_fail_not_connected 2 3 5 1 7 freshClient (fun _ => MQTTStatus.MQTTSuccess)
    (fun _ => (MQTTStatus.MQTTSuccess, [])) [some MQTTQoS.MQTTQoS1]
    [some MQTTQoS.MQTTQoS1] true rfl rfl (by decide) (by decide) (by decide)

/-- Claim C8 (confirmed).  `cy_mqtt_subscribe` with a topic count
greater than `CY_MQTT_MAX_OUTGOING_SUBSCRIBES` (or less than 1) fails
with `BADARG` in the leading argument check: the client state is
unchanged and no codec call is issued. -/
theorem cy_mqtt_subscribe_count_badarg :
    ∀ (maxSubs maxRetry ackTimeout packetId : Nat) (c : Client) (argsOk mallocOk : Bool)
      (subQos : List (Option MQTTQoS)) (sendRes : Nat → MQTTStatus)
      (proc : Nat → MQTTStatus × List Incoming),
    subQos.length < 1 ∨ maxSubs < subQos.length →
    cy_mqtt_subscribe maxSubs maxRetry ackTimeout c argsOk subQos mallocOk packetId
        sendRes proc = (cy_rslt.badarg, c, [], none) := by
  intro maxSubs maxRetry ackTimeout packetId c argsOk mallocOk subQos sendRes proc h
  rcases h with h | h <;> simp [cy_mqtt_subscribe, h]

/-- Witness for C8: three topics against a limit of two. -/
theorem cy_mqtt_subscribe_count_badarg_witness :
    cy_mqtt_subscribe 2 3 5 connectedClient true
        [some MQTTQoS.MQTTQoS0, some MQTTQoS.MQTTQoS1, some MQTTQoS.MQTTQoS2] true 7
        (fun _ => MQTTStatus.MQTTSuccess) (fun _ => (MQTTStatus.MQTTSuccess, []))
      = (cy_rslt.badarg, connectedClient, [], none) :=
  cy_mqtt_subscribe_count_badarg 2 3 5 7 connectedClient true true
    [some MQTTQoS.MQTTQoS0, some MQTTQoS.MQTTQoS1, some MQTTQoS.MQTTQoS2]
    (fun _ => MQTTStatus.MQTTSuccess) (fun _ => (MQTTStatus.MQTTSuccess, []))
    (Or.inr (by decide))

/-- Claim C3 counterexample.  The claim says `session_established ⇒
conn_status` holds at every observable point, including between the
CONNECT handshake succeeding and `connect` returning.  On a successful
connect from a fresh client, the state observable right after
`mqtt_establish_session` releases `process_mutex` (source line 642;
`mqtt_conn_status` is only set at line 1339) has
`mqtt_session_established = true` and `mqtt_conn_status = false`. -/
theorem cy_mqtt_connect_observable_violation :
    (cy_mqtt_connect freshClient true true cleanConnectExt).1 = cy_rslt.success ∧
    ((cy_mqtt_connect freshClient true true cleanConnectExt).2.2).any
        (fun s => s.mqtt_session_established && !s.mqtt_conn_status) = true := by
  constructor
  · rfl
  · rfl

/-- Claim C2 counterexample.  The claim says the resend procedure stops
— issuing no further re-publishes — as soon as a re-publish send
fails.  With cursor yields [1, 2] and the send of id 1 failing, the
source's failure `break` only leaves the inner slot scan; the outer
loop fetches the next cursor id and hands id 2 to `MQTT_Publish` as
well.  The overall result is `PUBLISH_FAIL`, but the procedure did not
stop. -/
theorem mqtt_handle_publish_resend_continues_counterexample :
    failFirstSend 1 ≠ MQTTStatus.MQTTSuccess ∧
    (mqtt_handle_publish_resend twoQos1Slots [1, 2] failFirstSend).2.2 = [1, 2] ∧
    (mqtt_handle_publish_resend twoQos1Slots [1, 2] failFirstSend).1
      = cy_rslt.publishFail := by
  refine ⟨by decide, ?_, ?_⟩ <;> rfl

/-- The event dispatcher never changes `mqtt_conn_status`. -/
theorem mqtt_event_callback_conn_status (c : Client) (ty : PacketType)
    (st : MQTTStatus) (pid : Nat) (sstat : MQTTStatus)
    (scodes : List MQTTSubAckStatus) :
    (mqtt_event_callback c ty st pid sstat scodes).mqtt_conn_status
      = c.mqtt_conn_status := by
  cases ty <;>
    unfold mqtt_event_callback mqtt_handle_pub_ack_packet mqtt_update_suback_status <;>
    (try split_ifs) <;> rfl

/-- The event dispatcher either keeps `mqtt_session_established` or
clears it (the PINGRESP-failure arm); it never sets it. -/
theorem mqtt_event_callback_session (c : Client) (ty : PacketType)
    (st : MQTTStatus) (pid : Nat) (sstat : MQTTStatus)
    (scodes : List MQTTSubAckStatus) :
    (mqtt_event_callback c ty st pid sstat scodes).mqtt_session_established
        = c.mqtt_session_established ∨
    (mqtt_event_callback c ty st pid sstat scodes).mqtt_session_established
        = false := by
  cases ty <;>
    unfold mqtt_event_callback mqtt_handle_pub_ack_packet mqtt_update_suback_status <;>
    (try split_ifs) <;> simp

/-- Dispatching by `MQTT_ProcessLoop` never changes `mqtt_conn_status`. -/
theorem run_process_loop_conn_status (pkts : List Incoming) :
    ∀ c : Client, (run_process_loop c pkts).mqtt_conn_status = c.mqtt_conn_status := by
  induction pkts with
  | nil => intro c; rfl
  | cons p ps ih =>
      intro c
      simp only [run_process_loop, List.foldl_cons] at *
      rw [ih]
      exact mqtt_event_callback_conn_status c p.ptype p.deserStatus p.packet_id
        p.subCodecStatus p.subCodes

/-- Dispatching by `MQTT_ProcessLoop` never sets `mqtt_session_established`. -/
theorem run_process_loop_session (pkts : List Incoming) :
    ∀ c : Client, (run_process_loop c pkts).mqtt_session_established = true →
    c.mqtt_session_established = true := by
  induction pkts with
  | nil => intro c h; exact h
  | cons p ps ih =>
      intro c h
      simp only [run_process_loop, List.foldl_cons] at h
      have h2 := ih _ h
      rcases mqtt_event_callback_session c p.ptype p.deserStatus p.packet_id
          p.subCodecStatus p.subCodes with he | he
      · rw [he] at h2; exact h2
      · rw [he] at h2; cases h2

/-- The `exit` unwind always leaves `mqtt_session_established` false
(it clears the flag when set, and keeps it when already clear). -/
theorem cy_mqtt_connect_exit_session (c : Client) (r : cy_rslt) :
    (cy_mqtt_connect_exit c r).2.mqtt_session_established = false := by
  unfold cy_mqtt_connect_exit
  cases hc : c.mqtt_session_established <;> cases ht : c.recv_thread <;> simp [hc, ht]

/-- At its return, `cy_mqtt_connect` has either left the client
untouched (an argument/TLS failure), or gone through the `exit` unwind
(session cleared), or completed with `mqtt_conn_status` set. -/
theorem cy_mqtt_connect_result_cases (c : Client) (will cs : Bool) (ext : ConnectExt) :
    (cy_mqtt_connect c will cs ext).2.1 = c ∨
    (cy_mqtt_connect c will cs ext).2.1.mqtt_session_established = false ∨
    (cy_mqtt_connect c will cs ext).2.1.mqtt_conn_status = true := by
  unfold cy_mqtt_connect
  by_cases h1 : c.mqtt_obj_initialized = false
  · left; simp [h1]
  · by_cases h2 : will = false
    · left; simp [h1, h2]
    · by_cases h3 : ext.tls_ok = false
      · left; simp [h1, h2, h3]
      · simp only [h1, h2, h3, if_false]
        by_cases h4 : ext.codec_connect = MQTTStatus.MQTTSuccess
        · simp only [mqtt_establish_session, h4, ne_eq, not_true_eq_false, if_false,
            if_neg (by simp : ¬ (cy_rslt.success ≠ cy_rslt.success))]
          by_cases h5 : ({ c with
              mqtt_session_established := true
              broker_session_present := ext.session_present } : Client).recv_thread
                = false ∧ ext.thread_create_ok = false
          · rw [if_pos h5]
            right; left
            apply cy_mqtt_connect_exit_session
            exact cy_rslt.success
          · rw [if_neg h5]
            by_cases h6 : (if ({ c with
                  mqtt_session_established := true
                  broker_session_present := ext.session_present } : Client).recv_thread
                then ({ c with
                  mqtt_session_established := true
                  broker_session_present := ext.session_present } : Client)
                else { c with
                  mqtt_session_established := true
                  broker_session_present := ext.session_present
                  recv_thread := true }).broker_session_present = true ∧ (!cs) = false
            · rw [if_pos h6]
              by_cases h7 : (mqtt_handle_publish_resend
                  (if ({ c with
                      mqtt_session_established := true
                      broker_session_present := ext.session_present } : Client).recv_thread
                    then ({ c with
                      mqtt_session_established := true
                      broker_session_present := ext.session_present } : Client)
                    else { c with
                      mqtt_session_established := true
                      broker_session_present := ext.session_present
                      recv_thread := true }).outgoing_pub_packets
                  ext.resend_ids ext.resend_send).1 ≠ cy_rslt.success
              · rw [if_pos h7]
                right; left
                apply cy_mqtt_connect_exit_session
                exact cy_rslt.success
              · rw [if_neg h7]
                right; right; rfl
            · rw [if_neg h6]
              right; right; rfl
        · simp only [mqtt_establish_session, h4, ne_eq, not_false_eq_true, if_true,
            if_pos (by simp : cy_rslt.connectFail ≠ cy_rslt.success)]
          right; left
          apply cy_mqtt_connect_exit_session
          exact cy_rslt.success

/-- Claim C3 as amended.  `session_established ⇒ conn_status` is
preserved at the return of `cy_mqtt_connect`, by every receive-pump
iteration, by every disconnect-worker iteration, and at the return of
`cy_mqtt_disconnect` — but, as the counterexample shows, inside
`cy_mqtt_connect` there is an observable window between the CONNECT
handshake succeeding and `connect` returning in which
`mqtt_session_established` is true while `mqtt_conn_status` is still
false. -/
theorem session_conn_inv_at_api_boundaries :
    ∀ (c : Client) (will cs : Bool) (ext : ConnectExt) (st : MQTTStatus)
      (pkts : List Incoming),
    SessionConnInv c →
    SessionConnInv (cy_mqtt_connect c will cs ext).2.1 ∧
    SessionConnInv (mqtt_receive_thread_step c st pkts) ∧
    SessionConnInv (mqtt_disconn_event_thread_step c) ∧
    SessionConnInv (cy_mqtt_disconnect c).2.1 := by
  intro c will cs ext st pkts hinv
  refine ⟨?_, ?_, ?_, ?_⟩
  · rcases cy_mqtt_connect_result_cases c will cs ext with hc | hs | hcn
    · rw [hc]; exact hinv
    · intro h; rw [h] at hs; cases hs
    · intro _; exact hcn
  · unfold mqtt_receive_thread_step
    split_ifs with h1 h2
    · intro h; simp at h
    · unfold SessionConnInv
      intro hs
      rw [run_process_loop_conn_status]
      exact hinv (run_process_loop_session pkts c hs)
    · exact hinv
  · unfold mqtt_disconn_event_thread_step
    split_ifs with h1
    · intro hs; cases hs
    · exact hinv
  · unfold cy_mqtt_disconnect
    split_ifs <;> first
      | exact hinv
      | (intro hs; simp at hs)

/-- One unfolding step of the re-read loop (definitional). -/
theorem network_receive_loop_step (tm : Nat) (reads : Nat → Int × Nat)
    (fuel k total rem req : Nat) :
    network_receive_loop tm reads (fuel + 1) k total rem req =
      (let r := (reads k).1
       let elapsed := (reads k).2
       if r < 0 then some r
       else if r = 0 ∧ total = 0 then some 0
       else
         let total' := if 0 < r then total + r.toNat else total
         let rem1 := if 0 < r then tm else rem
         let elapsed' := if 0 < r then 0 else elapsed
         let rem2 := (rem1 + (SIZE_T_MOD - elapsed' % SIZE_T_MOD)) % SIZE_T_MOD
         if total' < req ∧ 0 < rem2 then
           network_receive_loop tm reads fuel (k + 1) total' rem2 req
         else some (Int.ofNat total')) := rfl

/-- Claim C6 (code bug demonstration).  The claim says the re-read loop
terminates, returning `total_received`, as soon as the cumulative
budget is exhausted.  `remainingTimeMs` is a `size_t`, and
`remainingTimeMs -= elapsedTimeMs` wraps when a zero-byte poll takes
longer than the remaining budget: with 2 bytes requested, one byte
already received and the second poll taking `T + 1` ms against a full
budget of `T` ms, the wrapped remainder is `2^64 - 1`, the adapter
keeps polling past the exhausted budget, performs a third read and
returns 2 — instead of stopping with `total_received = 1` when the
budget expired.  (`T` stands for the header-defined positive constant
`CY_MQTT_MESSAGE_RECEIVE_TIMEOUT_MS`, which is far below `2^64`.) -/
theorem mqtt_awsport_network_receive_budget_overrun :
    ∀ T : Nat, 0 < T → T + 1 < SIZE_T_MOD →
    mqtt_awsport_network_receive T (c6reads T) 2 10 = some 2 := by
  intro T hT hM
  have hTM : T < SIZE_T_MOD := by omega
  have e2 : (T + (SIZE_T_MOD - (T + 1))) % SIZE_T_MOD = SIZE_T_MOD - 1 := by
    have h3 : T + (SIZE_T_MOD - (T + 1)) = SIZE_T_MOD - 1 := by omega
    rw [h3, Nat.mod_eq_of_lt (by omega)]
  have hpos : 0 < SIZE_T_MOD - 1 := by
    have h4 : (4 : Nat) ≤ SIZE_T_MOD := by norm_num [SIZE_T_MOD]
    omega
  unfold mqtt_awsport_network_receive
  rw [show (10 : Nat) = 9 + 1 from rfl, network_receive_loop_step]
  simp only [c6reads]
  norm_num [Nat.mod_eq_of_lt hTM, hT]
  rw [show (9 : Nat) = 8 + 1 from rfl, network_receive_loop_step]
  simp only [c6reads]
  norm_num [Nat.mod_eq_of_lt hM, e2, hpos]
  rw [show (8 : Nat) = 7 + 1 from rfl, network_receive_loop_step]
  simp only [c6reads]
  norm_num [Nat.mod_eq_of_lt hTM]

/-- Witness for C6 at `T = 1`. -/
theorem mqtt_awsport_network_receive_budget_overrun_witness :
    0 < 1 ∧ 1 + 1 < SIZE_T_MOD ∧
    mqtt_awsport_network_receive 1 (c6reads 1) 2 10 = some 2 :=
  ⟨by norm_num, by norm_num [SIZE_T_MOD],
    mqtt_awsport_network_receive_budget_overrun 1 (by norm_num)
      (by norm_num [SIZE_T_MOD])⟩

/-- Witness for the amended C3 at a concrete connected client. -/
theorem session_conn_inv_at_api_boundaries_witness :
    SessionConnInv (cy_mqtt_connect connectedClient true true cleanConnectExt).2.1 ∧
    SessionConnInv (mqtt_receive_thread_step connectedClient
        MQTTStatus.MQTTKeepAliveTimeout []) ∧
    SessionConnInv (mqtt_disconn_event_thread_step connectedClient) ∧
    SessionConnInv (cy_mqtt_disconnect connectedClient).2.1 :=
  session_conn_inv_at_api_boundaries connectedClient true true cleanConnectExt
    MQTTStatus.MQTTKeepAliveTimeout [] (fun _ => rfl)

/-- The resend scan keeps the stored packet ids. -/
theorem packetids_updateDup (pid : Nat) (slots : List cy_mqtt_pubpack) :
    packetids (updateDup pid slots) = packetids slots := by
  induction slots with
  | nil => rfl
  | cons s rest ih =>
      show (if s.packetid = pid ∧ s.qos ≠ MQTTQoS.MQTTQoS0 then { s with dup := true }
          else s).packetid :: packetids (updateDup pid rest)
        = s.packetid :: packetids rest
      rw [ih]
      congr 1
      split <;> rfl

/-- The resend scan keeps each stored QoS. -/
theorem qosOf_updateDup (q pid : Nat) (slots : List cy_mqtt_pubpack) :
    qosOf (updateDup q slots) pid = qosOf slots pid := by
  induction slots with
  | nil => rfl
  | cons s rest ih =>
      have hhead : (if s.packetid = q ∧ s.qos ≠ MQTTQoS.MQTTQoS0
          then { s with dup := true } else s).packetid = s.packetid := by
        split <;> rfl
      have hqos : (if s.packetid = q ∧ s.qos ≠ MQTTQoS.MQTTQoS0
          then { s with dup := true } else s).qos = s.qos := by
        split <;> rfl
      show qosOf ((if s.packetid = q ∧ s.qos ≠ MQTTQoS.MQTTQoS0
          then { s with dup := true } else s) :: updateDup q rest) pid
        = qosOf (s :: rest) pid
      by_cases hp : s.packetid = pid
      · unfold qosOf
        rw [List.find?_cons_of_pos _ (by rw [hhead]; simpa using hp),
          List.find?_cons_of_pos _ (by simpa using hp)]
        simp [hqos]
      · unfold qosOf
        rw [List.find?_cons_of_neg _ (by rw [hhead]; simpa using hp),
          List.find?_cons_of_neg _ (by simpa using hp)]
        exact ih

/-- A scan for an id that is not in the store changes nothing. -/
theorem updateDup_not_mem (pid : Nat) (slots : List cy_mqtt_pubpack)
    (h : pid ∉ packetids slots) : updateDup pid slots = slots := by
  induction slots with
  | nil => rfl
  | cons s rest ih =>
      simp only [packetids, List.map_cons, List.mem_cons, not_or] at h
      show (if s.packetid = pid ∧ s.qos ≠ MQTTQoS.MQTTQoS0 then { s with dup := true }
          else s) :: updateDup pid rest = s :: rest
      rw [if_neg (fun hc => h.1 hc.1.symm)]
      rw [ih (by simpa [packetids] using h.2)]

/-- Running `scanSlots` for an id that is not in the store: no sends, no
updates, `found_packetid = false`. -/
theorem scanSlots_not_mem (f : Nat → MQTTStatus) (pid : Nat)
    (slots : List cy_mqtt_pubpack) (h : pid ∉ packetids slots) :
    scanSlots f pid slots = (slots, [], false, false) := by
  induction slots with
  | nil => rfl
  | cons s rest ih =>
      simp only [packetids, List.map_cons, List.mem_cons, not_or] at h
      unfold scanSlots
      rw [if_neg (fun hc => h.1 hc.symm)]
      rw [ih (by simpa [packetids] using h.2)]

/-- Running `scanSlots` for a stored id (assuming the spec invariant that
stored packet ids are pairwise distinct): the matching slot of QoS ≠ 0
gets `dup := true` and is handed to `MQTT_Publish` once; a QoS 0 match
is skipped; `found_packetid` is true, and the failure flag records the
send outcome. -/
theorem scanSlots_mem_spec (f : Nat → MQTTStatus) (pid : Nat)
    (slots : List cy_mqtt_pubpack) (hmem : pid ∈ packetids slots)
    (hnd : (packetids slots).Nodup) :
    scanSlots f pid slots =
      (updateDup pid slots,
       if qosOf slots pid = some MQTTQoS.MQTTQoS0 then [] else [pid],
       true,
       if qosOf slots pid = some MQTTQoS.MQTTQoS0 then false
         else !(f pid == MQTTStatus.MQTTSuccess)) := by
  induction slots with
  | nil => simp [packetids] at hmem
  | cons s rest ih =>
      have hnd2 : (∀ x ∈ rest, ¬ x.packetid = s.packetid)
          ∧ (List.map (fun t => t.packetid) rest).Nodup := by
        simpa [packetids] using hnd
      have hnd' : (packetids rest).Nodup := hnd2.2
      by_cases hs : s.packetid = pid
      · have hrest : pid ∉ packetids rest := by
          intro hmm
          obtain ⟨x, hx, hxp⟩ := List.mem_map.mp hmm
          exact hnd2.1 x hx (hxp.trans hs.symm)
        have hscan := scanSlots_not_mem f pid rest hrest
        have hupd := updateDup_not_mem pid rest hrest
        have hfind : qosOf (s :: rest) pid = some s.qos := by
          unfold qosOf
          rw [List.find?_cons_of_pos _ (by simpa using hs)]
          rfl
        by_cases hq : s.qos = MQTTQoS.MQTTQoS0
        · unfold scanSlots
          rw [if_pos hs, if_pos hq, hscan, hfind]
          rw [if_pos (by rw [hq]), if_pos (by rw [hq])]
          show (s :: rest, [], true, false)
            = ((if s.packetid = pid ∧ s.qos ≠ MQTTQoS.MQTTQoS0 then { s with dup := true }
                else s) :: updateDup pid rest, [], true, false)
          rw [if_neg (fun hc => hc.2 hq), hupd]
        · have hqneg : ¬ (some s.qos = some MQTTQoS.MQTTQoS0) := by
            intro hc; exact hq (Option.some.inj hc)
          by_cases hf : f pid = MQTTStatus.MQTTSuccess
          · unfold scanSlots
            rw [if_pos hs, if_neg hq, if_pos hf, hscan, hfind]
            rw [if_neg hqneg, if_neg hqneg]
            show ({ s with dup := true } :: rest, [pid], true, false)
              = ((if s.packetid = pid ∧ s.qos ≠ MQTTQoS.MQTTQoS0 then { s with dup := true }
                  else s) :: updateDup pid rest, [pid], true, !(f pid == MQTTStatus.MQTTSuccess))
            rw [if_pos ⟨hs, hq⟩, hupd]
            have hb : (f pid == MQTTStatus.MQTTSuccess) = true := by simp [hf]
            rw [hb]
            rfl
          · unfold scanSlots
            rw [if_pos hs, if_neg hq, if_neg hf, hfind]
            rw [if_neg hqneg, if_neg hqneg]
            show ({ s with dup := true } :: rest, [pid], true, true)
              = ((if s.packetid = pid ∧ s.qos ≠ MQTTQoS.MQTTQoS0 then { s with dup := true }
                  else s) :: updateDup pid rest, [pid], true, !(f pid == MQTTStatus.MQTTSuccess))
            rw [if_pos ⟨hs, hq⟩, hupd]
            have hb : (f pid == MQTTStatus.MQTTSuccess) = false := by simp [hf]
            rw [hb]
            rfl
      · have hmem' : pid ∈ packetids rest := by
          rcases (by simpa [packetids] using hmem : pid = s.packetid ∨ pid ∈ packetids rest)
            with h | h
          · exact absurd h.symm hs
          · exact h
        have hfind : qosOf (s :: rest) pid = qosOf rest pid := by
          unfold qosOf
          rw [List.find?_cons_of_neg _ (by simpa using hs)]
        unfold scanSlots
        rw [if_neg hs, ih hmem' hnd', hfind]
        show (s :: updateDup pid rest,
            (if qosOf rest pid = some MQTTQoS.MQTTQoS0 then [] else [pid]), true,
            (if qosOf rest pid = some MQTTQoS.MQTTQoS0 then false
              else !(f pid == MQTTStatus.MQTTSuccess)))
          = ((if s.packetid = pid ∧ s.qos ≠ MQTTQoS.MQTTQoS0 then { s with dup := true }
              else s) :: updateDup pid rest,
            (if qosOf rest pid = some MQTTQoS.MQTTQoS0 then [] else [pid]), true,
            (if qosOf rest pid = some MQTTQoS.MQTTQoS0 then false
              else !(f pid == MQTTStatus.MQTTSuccess)))
        have hcond : ¬ (s.packetid = pid ∧ s.qos ≠ MQTTQoS.MQTTQoS0) := fun hc => hs hc.1
        rw [if_neg hcond]

/-- Scanning for `pid` and then marking the remaining ids equals
marking all of `pid :: rest` at once. -/
theorem updateDup_map_cons (pid : Nat) (rest : List Nat)
    (slots : List cy_mqtt_pubpack) :
    (updateDup pid slots).map (fun s =>
        if s.packetid ∈ rest ∧ s.qos ≠ MQTTQoS.MQTTQoS0 then { s with dup := true }
        else s)
      = slots.map (fun s =>
        if s.packetid ∈ pid :: rest ∧ s.qos ≠ MQTTQoS.MQTTQoS0 then { s with dup := true }
        else s) := by
  unfold updateDup
  rw [List.map_map]
  apply List.map_congr_left
  intro a _
  by_cases h1 : a.packetid = pid
  · by_cases h2 : a.qos = MQTTQoS.MQTTQoS0
    · simp [Function.comp, h1, h2]
    · by_cases h3 : a.packetid ∈ rest <;> simp [Function.comp, h1, h2, h3]
  · by_cases h2 : a.qos = MQTTQoS.MQTTQoS0
    · simp [Function.comp, h1, h2]
    · by_cases h3 : a.packetid ∈ rest <;> simp [Function.comp, h1, h2, h3]

/-- One step of the resend loop on a stored cursor id. -/
theorem resendLoop_cons_found (f : Nat → MQTTStatus) (pid : Nat) (rest : List Nat)
    (slots : List cy_mqtt_pubpack) (res : cy_rslt) (hpid0 : pid ≠ 0)
    (hmem : pid ∈ packetids slots) (hnd : (packetids slots).Nodup) :
    resendLoop f (pid :: rest) slots res =
      ((resendLoop f rest (updateDup pid slots)
          (if (if qosOf slots pid = some MQTTQoS.MQTTQoS0 then false
              else !(f pid == MQTTStatus.MQTTSuccess)) = true
            then cy_rslt.publishFail else res)).1,
       (resendLoop f rest (updateDup pid slots)
          (if (if qosOf slots pid = some MQTTQoS.MQTTQoS0 then false
              else !(f pid == MQTTStatus.MQTTSuccess)) = true
            then cy_rslt.publishFail else res)).2.1,
       (if qosOf slots pid = some MQTTQoS.MQTTQoS0 then [] else [pid])
         ++ (resendLoop f rest (updateDup pid slots)
          (if (if qosOf slots pid = some MQTTQoS.MQTTQoS0 then false
              else !(f pid == MQTTStatus.MQTTSuccess)) = true
            then cy_rslt.publishFail else res)).2.2) := by
  conv_lhs => unfold resendLoop
  rw [if_neg hpid0, scanSlots_mem_spec f pid slots hmem hnd]
  rfl

/-- The invariant behavior of the resend loop when every cursor id is
stored and the stored ids are pairwise distinct: the ids handed to
`MQTT_Publish`, the final store, and the sticky result. -/
theorem resendLoop_spec (f : Nat → MQTTStatus) :
    ∀ (ids : List Nat) (slots : List cy_mqtt_pubpack) (res : cy_rslt),
    0 ∉ ids → (packetids slots).Nodup →
    (∀ pid ∈ ids, pid ∈ packetids slots) →
    (resendLoop f ids slots res).2.2
        = ids.filter (fun pid => !(qosOf slots pid == some MQTTQoS.MQTTQoS0)) ∧
    (resendLoop f ids slots res).2.1
        = slots.map (fun s =>
            if s.packetid ∈ ids ∧ s.qos ≠ MQTTQoS.MQTTQoS0 then { s with dup := true }
            else s) ∧
    (resendLoop f ids slots res).1
        = (if ∃ pid ∈ (resendLoop f ids slots res).2.2, ¬ f pid = MQTTStatus.MQTTSuccess
           then cy_rslt.publishFail else res) := by
  intro ids
  induction ids with
  | nil =>
      intro slots res h0 hnd hall
      refine ⟨rfl, ?_, by simp [resendLoop]⟩
      show slots = _
      simp
  | cons pid rest ih =>
      intro slots res h0 hnd hall
      have hpid0 : pid ≠ 0 := fun he => h0 (he ▸ List.mem_cons_self pid rest)
      have h0' : 0 ∉ rest := fun hm => h0 (List.mem_cons_of_mem _ hm)
      have hmem : pid ∈ packetids slots := hall pid (List.mem_cons_self _ _)
      have hnd1 : (packetids (updateDup pid slots)).Nodup := by
        rw [packetids_updateDup]; exact hnd
      have hall1 : ∀ q ∈ rest, q ∈ packetids (updateDup pid slots) := by
        intro q hq; rw [packetids_updateDup]; exact hall q (List.mem_cons_of_mem _ hq)
      rw [resendLoop_cons_found f pid rest slots res hpid0 hmem hnd]
      obtain ⟨ihS, ihL, ihR⟩ := ih (updateDup pid slots)
        (if (if qosOf slots pid = some MQTTQoS.MQTTQoS0 then false
            else !(f pid == MQTTStatus.MQTTSuccess)) = true
          then cy_rslt.publishFail else res) h0' hnd1 hall1
      have hfilter :
          (resendLoop f rest (updateDup pid slots)
              (if (if qosOf slots pid = some MQTTQoS.MQTTQoS0 then false
                  else !(f pid == MQTTStatus.MQTTSuccess)) = true
                then cy_rslt.publishFail else res)).2.2
            = rest.filter (fun q => !(qosOf slots q == some MQTTQoS.MQTTQoS0)) := by
        rw [ihS]
        apply List.filter_congr
        intro q _
        rw [qosOf_updateDup]
      refine ⟨?_, ?_, ?_⟩
      · rw [hfilter, List.filter_cons]
        by_cases hq : qosOf slots pid = some MQTTQoS.MQTTQoS0
        · simp [hq]
        · simp [hq]
      · rw [ihL, updateDup_map_cons]
      · rw [ihR, hfilter]
        by_cases hq : qosOf slots pid = some MQTTQoS.MQTTQoS0
        · rw [if_pos hq, if_pos hq, List.nil_append,
            if_neg (by decide : ¬ ((false : Bool) = true))]
        · rw [if_neg hq, if_neg hq, List.singleton_append]
          by_cases hf : f pid = MQTTStatus.MQTTSuccess
          · have hb : (!(f pid == MQTTStatus.MQTTSuccess)) = false := by simp [hf]
            rw [hb, if_neg (by decide : ¬ ((false : Bool) = true))]
            by_cases hex : ∃ q ∈ rest.filter
                (fun q => !(qosOf slots q == some MQTTQoS.MQTTQoS0)),
                ¬ f q = MQTTStatus.MQTTSuccess
            · obtain ⟨q, hq', hfq⟩ := hex
              rw [if_pos ⟨q, hq', hfq⟩,
                if_pos ⟨q, List.mem_cons_of_mem _ hq', hfq⟩]
            · rw [if_neg hex, if_neg ?_]
              rintro ⟨q, hq', hfq⟩
              rcases List.mem_cons.mp hq' with h | h
              · exact hfq (h ▸ hf)
              · exact hex ⟨q, h, hfq⟩
          · have hb : (!(f pid == MQTTStatus.MQTTSuccess)) = true := by simp [hf]
            rw [hb, if_pos (rfl : (true : Bool) = true), ite_self,
              if_pos ⟨pid, List.mem_cons_self _ _, hf⟩]

/-- When a cursor id `pid` is not in the store, the loop stops there
with `PUBLISH_FAIL`, performing only the sends of the earlier ids. -/
theorem resendLoop_notfound (f : Nat → MQTTStatus) (pid : Nat) (post : List Nat) :
    ∀ (pre : List Nat) (slots : List cy_mqtt_pubpack) (res : cy_rslt),
    0 ∉ pre → pid ≠ 0 → (packetids slots).Nodup →
    (∀ q ∈ pre, q ∈ packetids slots) → pid ∉ packetids slots →
    (resendLoop f (pre ++ pid :: post) slots res).1 = cy_rslt.publishFail ∧
    (resendLoop f (pre ++ pid :: post) slots res).2.2
        = (resendLoop f pre slots res).2.2 := by
  intro pre
  induction pre with
  | nil =>
      intro slots res h0 hp0 hnd hall hnm
      constructor
      · show (resendLoop f (pid :: post) slots res).1 = _
        unfold resendLoop
        rw [if_neg hp0, scanSlots_not_mem f pid slots hnm]
        rfl
      · show (resendLoop f (pid :: post) slots res).2.2 = _
        unfold resendLoop
        rw [if_neg hp0, scanSlots_not_mem f pid slots hnm]
        rfl
  | cons q pre' ih =>
      intro slots res h0 hp0 hnd hall hnm
      have hq0 : q ≠ 0 := fun he => h0 (he ▸ List.mem_cons_self q pre')
      have h0' : 0 ∉ pre' := fun hm => h0 (List.mem_cons_of_mem _ hm)
      have hqmem : q ∈ packetids slots := hall q (List.mem_cons_self _ _)
      have hnd1 : (packetids (updateDup q slots)).Nodup := by
        rw [packetids_updateDup]; exact hnd
      have hall1 : ∀ w ∈ pre', w ∈ packetids (updateDup q slots) := by
        intro w hw; rw [packetids_updateDup]; exact hall w (List.mem_cons_of_mem _ hw)
      have hnm1 : pid ∉ packetids (updateDup q slots) := by
        rw [packetids_updateDup]; exact hnm
      rw [List.cons_append]
      rw [resendLoop_cons_found f q (pre' ++ pid :: post) slots res hq0 hqmem hnd,
        resendLoop_cons_found f q pre' slots res hq0 hqmem hnd]
      obtain ⟨ih1, ih2⟩ := ih (updateDup q slots)
        (if (if qosOf slots q = some MQTTQoS.MQTTQoS0 then false
            else !(f q == MQTTStatus.MQTTSuccess)) = true
          then cy_rslt.publishFail else res) h0' hp0 hnd1 hall1 hnm1
      exact ⟨ih1, by rw [ih2]⟩

/-- Claim C2 as amended.  On a resumed session, for every id yielded by
the resend cursor the matching slot is found and, if its QoS ≠ 0, it is
re-published with `dup = true` and the original packet id.  When a
re-publish send fails the procedure records `PUBLISH_FAIL` — and
ultimately returns it — but it does not stop: it continues with the
remaining cursor ids.  It does stop immediately, returning
`PUBLISH_FAIL`, when a cursor-reported id is not present in the store.
(Stated under the spec invariant that the stored packet ids are
pairwise distinct and the cursor never yields the invalid id 0.) -/
theorem mqtt_handle_publish_resend_amended :
    (∀ (slots : List cy_mqtt_pubpack) (ids : List Nat) (f : Nat → MQTTStatus),
      0 ∉ ids → (packetids slots).Nodup → (∀ pid ∈ ids, pid ∈ packetids slots) →
      (mqtt_handle_publish_resend slots ids f).2.2
          = ids.filter (fun pid => !(qosOf slots pid == some MQTTQoS.MQTTQoS0)) ∧
      (mqtt_handle_publish_resend slots ids f).2.1
          = slots.map (fun s =>
              if s.packetid ∈ ids ∧ s.qos ≠ MQTTQoS.MQTTQoS0 then { s with dup := true }
              else s) ∧
      ((mqtt_handle_publish_resend slots ids f).1 = cy_rslt.success ↔
        ∀ pid ∈ (mqtt_handle_publish_resend slots ids f).2.2,
          f pid = MQTTStatus.MQTTSuccess)) ∧
    (∀ (slots : List cy_mqtt_pubpack) (pre post : List Nat) (pid : Nat)
      (f : Nat → MQTTStatus),
      0 ∉ pre → pid ≠ 0 → (packetids slots).Nodup →
      (∀ q ∈ pre, q ∈ packetids slots) → pid ∉ packetids slots →
      (mqtt_handle_publish_resend slots (pre ++ pid :: post) f).1 = cy_rslt.publishFail ∧
      (mqtt_handle_publish_resend slots (pre ++ pid :: post) f).2.2
          = (mqtt_handle_publish_resend slots pre f).2.2) := by
  constructor
  · intro slots ids f h0 hnd hall
    obtain ⟨hS, hL, hR⟩ := resendLoop_spec f ids slots cy_rslt.success h0 hnd hall
    refine ⟨hS, hL, ?_⟩
    unfold mqtt_handle_publish_resend
    rw [hR]
    by_cases hex : ∃ pid ∈ (resendLoop f ids slots cy_rslt.success).2.2,
        ¬ f pid = MQTTStatus.MQTTSuccess
    · rw [if_pos hex]
      constructor
      · intro hcon; exact absurd hcon (by decide)
      · intro h
        obtain ⟨q, hq, hfq⟩ := hex
        exact absurd (h q hq) hfq
    · rw [if_neg hex]
      push_neg at hex
      exact ⟨fun _ => hex, fun _ => rfl⟩
  · intro slots pre post pid f h0 hp0 hnd hall hnm
    exact resendLoop_notfound f pid post pre slots cy_rslt.success h0 hp0 hnd hall hnm

/-- Witness for the amended C2: one stashed QoS1 publish is resent for
cursor id 3, and a cursor id 7 missing from the store fails. -/
theorem mqtt_handle_publish_resend_amended_witness :
    (mqtt_handle_publish_resend [⟨3, MQTTQoS.MQTTQoS1, false⟩] [3]
        (fun _ => MQTTStatus.MQTTSuccess)).2.2
      = [3].filter (fun pid => !(qosOf [⟨3, MQTTQoS.MQTTQoS1, false⟩] pid
          == some MQTTQoS.MQTTQoS0)) ∧
    (mqtt_handle_publish_resend [⟨3, MQTTQoS.MQTTQoS1, false⟩] ([] ++ 7 :: [])
        (fun _ => MQTTStatus.MQTTSuccess)).1 = cy_rslt.publishFail :=
  ⟨(mqtt_handle_publish_resend_amended.1 [⟨3, MQTTQoS.MQTTQoS1, false⟩] [3]
      (fun _ => MQTTStatus.MQTTSuccess) (by decide) (by decide) (by decide)).1,
   (mqtt_handle_publish_resend_amended.2 [⟨3, MQTTQoS.MQTTQoS1, false⟩] [] [] 7
      (fun _ => MQTTStatus.MQTTSuccess) (by decide) (by decide) (by decide) (by decide)
      (by decide)).1⟩

end CyMqttSpec
